import Mathlib

/-!
Verification development for the provisioning orchestration core of
kismatic-provision, a shallow embedding of
src/provision/digitalocean/digitalocean.go.

Pure logic (candidate filenames, the password-generation loop, plan
assembly, the control flow of makeInfra and makePlan) is translated
directly from the Go source.  External collaborators (the Digital Ocean
API client, the SSH/scp transport, the garbler password library, the
templating engine, the filesystem and environment) are abstracted as
oracle fields of a `World` record; every Go call site consults the oracle
exactly where the source consults the collaborator.
-/

namespace KismaticProvision

/-- One provisioned machine (plan.Node).  The defining package
provision/plan is outside the embedded sources; the fields are the ones
digitalocean.go reads (ID, PublicIPv4, PrivateIPv4, SSHUser), matching
spec section 3 "Provisioned Node" (stable identifier, public address,
private address, remote-login user). -/
structure Node where
  ID : String
  PublicIPv4 : String
  PrivateIPv4 : String
  SSHUser : String
  deriving Repr, DecidableEq

/-- Grouping of provisioned nodes by role, as returned by
provisioner.ProvisionNodes (field spelling Boostrap is the source's). -/
structure ProvisionedNodes where
  Etcd : List Node
  Master : List Node
  Worker : List Node
  Boostrap : List Node
  deriving Repr, DecidableEq

/-- plan.Plan as populated by makeInfra: the configuration document.
The defining package is outside the embedded sources; the fields are the
ones the struct literal in makeInfra assigns. -/
structure Plan where
  AdminPassword : String
  Etcd : List Node
  Master : List Node
  Worker : List Node
  Ingress : List Node
  Storage : List Node
  MasterNodeFQDN : String
  MasterNodeShortName : String
  SSHKeyFile : String
  SSHUser : String
  deriving Repr, DecidableEq

/-- DOOpts from digitalocean.go.  The uint16 node counts are modelled as
Nat: they are only handed to the provisioning oracle, never computed on. -/
structure DOOpts where
  Token : String
  ClusterTag : String
  EtcdNodeCount : Nat
  MasterNodeCount : Nat
  WorkerNodeCount : Nat
  NoPlan : Bool
  InstanceType : String
  WorkerType : String
  Image : String
  Region : String
  Storage : Bool
  SSHUser : String
  SshKeyName : String
  SshPrivate : String
  SshPublic : String
  BootstrapNode : Bool
  RemoveKey : Bool
  deriving Repr, DecidableEq

/-- The flag defaults declared in DOCreateCmd. -/
def defaultOpts : DOOpts :=
  { Token := "", ClusterTag := "apprenda", EtcdNodeCount := 1,
    MasterNodeCount := 1, WorkerNodeCount := 1, NoPlan := false,
    InstanceType := "1gb", WorkerType := "4gb",
    Image := "ubuntu-16-04-x64", Region := "tor1", Storage := false,
    SSHUser := "root", SshKeyName := "", SshPrivate := "", SshPublic := "",
    BootstrapNode := true, RemoveKey := true }

/-! ## Unique artifact allocator (makeUniqueFile) -/

/-- Candidate filename probed by makeUniqueFile at recursion depth
`count`: "kismatic-cluster.yaml" for count = 0 and
"kismatic-cluster-<count>.yaml" for count > 0, exactly as the Go body
builds it. -/
def candName (count : Nat) : String :=
  let filename := "kismatic-cluster"
  let filename := if count > 0 then filename ++ "-" ++ toString count else filename
  filename ++ ".yaml"

/-- makeUniqueFile from digitalocean.go, with the directory abstracted as
`taken` (true when os.Stat succeeds on the name) and the unbounded
recursion made total by `fuel`: `none` means the recursion has not
returned within `fuel` calls.  The Go body has exactly two exits per
call: if the candidate does not exist it creates and returns it,
otherwise it recurses on count + 1 — there is no attempt bound and no
error for exhaustion anywhere in the source. -/
def makeUniqueFileFuel (taken : String → Bool) : Nat → Nat → Option String
  | _, 0 => none
  | count, fuel + 1 =>
    let filename := candName count
    if taken filename then makeUniqueFileFuel taken (count + 1) fuel
    else some filename

/-! ## Credential generator (generateAlphaNumericPassword) -/

/-- Character class of the regular expression the source actually
compiles in generateAlphaNumericPassword: "^[a-zA-Z1-9]+$" (the digit
range in the source starts at 1, not 0). -/
def isCodePatternChar (c : Char) : Bool :=
  ('a' ≤ c && c ≤ 'z') || ('A' ≤ c && c ≤ 'Z') || ('1' ≤ c && c ≤ '9')

/-- Whole-string match of the source's anchored pattern "^[a-zA-Z1-9]+$":
non-empty and every character in the class. -/
def matchesCodePattern (s : String) : Bool :=
  !s.data.isEmpty && s.data.all isCodePatternChar

/-- Character class of the pattern the spec names, "^[a-zA-Z0-9]+$". -/
def isSpecAlphaNumChar (c : Char) : Bool :=
  ('a' ≤ c && c ≤ 'z') || ('A' ≤ c && c ≤ 'Z') || ('0' ≤ c && c ≤ '9')

/-- Whole-string match of the spec's pattern "^[a-zA-Z0-9]+$".  Stated
from the spec's words, for comparison with the source's pattern. -/
def matchesSpecPattern (s : String) : Bool :=
  !s.data.isEmpty && s.data.all isSpecAlphaNumChar

/-- Loop body of generateAlphaNumericPassword.  `gen i` abstracts the
i-th call to garbler.NewPassword (together with the rand.Intn-driven
requirements it is handed); `none` is a generation error.  `remaining`
stands for 50 - attempts, so `remaining = 0` is the source's test
`attempts == 50`; the source starts at attempts = 0 and increments by
one per pattern failure, so the downward counter covers exactly the
reachable states.  Faithful to the source: a generation error returns
"weakpassword" at once (no retry), a pattern failure retries until the
counter is exhausted.  The source's single loop body is split over the
two values of the counter: at remaining = 0 (the source's test
attempts == 50) a pattern failure returns the sentinel instead of
recursing, exactly as the source's early return does. -/
def generatePasswordFrom (gen : Nat → Option String) : Nat → Nat → String
  | i, 0 =>
    match gen i with
    | none => "weakpassword"
    | some pass => if matchesCodePattern pass then pass else "weakpassword"
  | i, r + 1 =>
    match gen i with
    | none => "weakpassword"
    | some pass =>
      if matchesCodePattern pass then pass
      else generatePasswordFrom gen (i + 1) r

/-- generateAlphaNumericPassword from digitalocean.go: the loop entered
with attempts = 0, i.e. 50 retries remaining. -/
def generateAlphaNumericPassword (gen : Nat → Option String) : String :=
  generatePasswordFrom gen 0 50

/-! ## World: environment, filesystem and collaborator oracles -/

/-- Ambient state and external collaborator outcomes for one run.
Modelled from the spec: the provisioner (section 4.1), the readiness
synchronizer (4.2), the templating engine and scp transport (4.4) are
external collaborators whose code is outside the embedded sources; each
is an oracle recording the outcome of its one call site.  `fileExists`
is the os.Stat view of the filesystem, `fsFuel` bounds the (unbounded)
makeUniqueFile recursion, `gen` feeds the credential generator. -/
structure World where
  doApiToken : String
  doSecretAccessKey : String
  doKetInstallDir : String
  execDir : String
  stdinToken : String
  fileExists : String → Bool
  provisionResult : Except String ProvisionedNodes
  sshError : Option String
  gen : Nat → Option String
  templateParseError : Option String
  templateExecError : Option String
  scpResult : Except String String
  fsFuel : Nat

/-- Scan of a character list keeping the run of characters after the
last separator seen so far. -/
def baseNameAux : List Char → List Char → List Char
  | [], acc => acc
  | c :: rest, acc => baseNameAux rest (if c = '/' then [] else acc ++ [c])

/-- Base name of a path, as FileInfo.Name() reports it: the component
after the last separator. -/
def baseName (path : String) : String :=
  ⟨baseNameAux path.data []⟩

/-- os.Stat abstracted to what makeInfra uses of it: `some` of the base
name when the path is non-empty and the file exists (a non-nil FileInfo),
`none` otherwise (an error, hence a nil FileInfo).  os.Stat of the empty
string always fails with ENOENT. -/
def osStat (w : World) (path : String) : Option String :=
  if path != "" && w.fileExists path then some (baseName path) else none

/-- validateKeyFile from digitalocean.go, returning the Go triple
(private path, public path, optional error).  When DO_SECRET_ACCESS_KEY
is unset (Go: the empty string) it probes <execDir>/ssh/cluster.pem and
returns empty paths plus a descriptive error if that file is absent;
when the variable is set it returns the path unchecked, with no error. -/
def validateKeyFile (w : World) : String × String × Option String :=
  if w.doSecretAccessKey = "" then
    let sshKeyPath := w.execDir ++ "/ssh"
    let filePath := sshKeyPath ++ "/cluster.pem"
    if w.fileExists filePath then (filePath, filePath ++ ".pub", none)
    else ("", "",
      some ("Private SSH file was not found in expected location. Create your own key pair and reference in options to the provision command. Change file permissions to allow w/r for the user (chmod 600)"))
  else (w.doSecretAccessKey, w.doSecretAccessKey ++ ".pub", none)

/-- Go runtime faults that the embedded control flow can reach. -/
inductive GoPanic where
  | nilPointerDereference
  | indexOutOfRange
  deriving Repr, DecidableEq

/-- Outcome of a run: a runtime fault, or the error value returned to
the caller (cobra turns a non-nil error into a non-zero exit). -/
inductive RunError where
  | panic (p : GoPanic)
  | err (msg : String)
  deriving Repr, DecidableEq

/-- Observable result of a successful makePlan call. -/
structure PlanResult where
  plan : Plan
  fileName : String
  filesCreated : List String
  scpAttempted : Bool
  scpSucceeded : Bool
  deriving Repr, DecidableEq

/-- makePlan from digitalocean.go.  Outer `none` means the
makeUniqueFile recursion did not return within `w.fsFuel` probes (the
source recursion is unbounded).  Control flow follows the source: parse
the overlay template (error returned), allocate the unique file (error
returned), execute the template into the buffered writer (error
returned), then, when a bootstrap node was requested, index
nodes.Boostrap[0] (a fault when the list is empty) and scp the file.
An scp failure only builds a discarded fmt.Errorf value; the function
returns nil either way, with the local file still in place. -/
def makePlan (pln : Plan) (opts : DOOpts) (nodes : ProvisionedNodes) (w : World) :
    Option (Except RunError PlanResult) :=
  match w.templateParseError with
  | some e => some (.error (.err e))
  | none =>
    match makeUniqueFileFuel w.fileExists 0 w.fsFuel with
    | none => none
    | some fname =>
      match w.templateExecError with
      | some e => some (.error (.err e))
      | none =>
        if opts.BootstrapNode then
          match nodes.Boostrap with
          | [] => some (.error (.panic .indexOutOfRange))
          | _boot :: _ =>
            match w.scpResult with
            | .error _scperr =>
              some (.ok { plan := pln, fileName := fname, filesCreated := [fname],
                          scpAttempted := true, scpSucceeded := false })
            | .ok _out =>
              some (.ok { plan := pln, fileName := fname, filesCreated := [fname],
                          scpAttempted := true, scpSucceeded := true })
        else
          some (.ok { plan := pln, fileName := fname, filesCreated := [fname],
                      scpAttempted := false, scpSucceeded := false })

/-- Observable result of a successful makeInfra call. -/
structure InfraResult where
  planOut : Option PlanResult
  passwordGenerated : Bool
  filesCreated : List String
  deriving Repr, DecidableEq

/-- makeInfra from digitalocean.go.  Faithful to the source's order:
resolve the token (environment, else stdin — never fails), call
validateKeyFile, then immediately os.Stat the returned private path and
call .Name() on the result — a nil-pointer fault when the stat failed —
and only afterwards check the key error; then provision, wait for SSH,
and either stop (NoPlan) or assemble the plan literal — indexing
Worker[0] and Master[0], a fault when either list is empty — and call
makePlan.  Outer `none` propagates makePlan's unbounded file probing. -/
def makeInfra (opts : DOOpts) (w : World) : Option (Except RunError InfraResult) :=
  let token := if w.doApiToken = "" then w.stdinToken else w.doApiToken
  let opts1 : DOOpts := { opts with Token := token }
  let vk := validateKeyFile w
  let sshPrivate := vk.1
  let sshPublic := vk.2.1
  let errkey := vk.2.2
  match osStat w sshPrivate with
  | none => some (.error (.panic .nilPointerDereference))
  | some statName =>
    let opts2 : DOOpts :=
      { opts1 with SshKeyName := statName, SshPrivate := sshPrivate, SshPublic := sshPublic }
    match errkey with
    | some e => some (.error (.err e))
    | none =>
      match w.provisionResult with
      | .error e => some (.error (.err e))
      | .ok nodes =>
        match w.sshError with
        | some e => some (.error (.err e))
        | none =>
          if opts2.NoPlan then
            some (.ok { planOut := none, passwordGenerated := false, filesCreated := [] })
          else
            let storageNodes : List Node := if opts2.Storage then nodes.Worker else []
            let remoteSSH := "/ket/ssh/" ++ opts2.SshKeyName
            let password := generateAlphaNumericPassword w.gen
            match nodes.Worker with
            | [] => some (.error (.panic .indexOutOfRange))
            | w0 :: _ =>
              match nodes.Master with
              | [] => some (.error (.panic .indexOutOfRange))
              | m0 :: _ =>
                let pln : Plan :=
                  { AdminPassword := password, Etcd := nodes.Etcd,
                    Master := nodes.Master, Worker := nodes.Worker,
                    Ingress := [w0], Storage := storageNodes,
                    MasterNodeFQDN := m0.PublicIPv4,
                    MasterNodeShortName := m0.PublicIPv4,
                    SSHKeyFile := remoteSSH, SSHUser := m0.SSHUser }
                match makePlan pln opts2 nodes w with
                | none => none
                | some (.error e) => some (.error e)
                | some (.ok r) =>
                  some (.ok { planOut := some r, passwordGenerated := true,
                              filesCreated := r.filesCreated })

/-! ## Interleaving model of two concurrent makeUniqueFile runs

makeUniqueFile touches the shared directory at exactly two points per
candidate: the os.Stat probe and the following os.Create.  Go's
os.Create opens with O_RDWR|O_CREATE|O_TRUNC — it creates or truncates
and succeeds whether or not the name already exists (no O_EXCL). -/

/-- Program counter of one makeUniqueFile invocation between atomic
filesystem operations. -/
inductive AllocState where
  | atStat (count : Nat)
  | atCreate (count : Nat)
  | returned (name : String)
  deriving Repr, DecidableEq

/-- One atomic filesystem step of one invocation against the shared
directory (the list of existing names).  The create step never fails
and never checks existence, exactly like os.Create. -/
def allocStep (dir : List String) : AllocState → AllocState × List String
  | .atStat c =>
    if candName c ∈ dir then (.atStat (c + 1), dir)
    else (.atCreate c, dir)
  | .atCreate c => (.returned (candName c), candName c :: dir)
  | .returned n => (.returned n, dir)

/-- Run two interleaved invocations; `sched` says which invocation takes
the next atomic step (true = the first one). -/
def runInterleaved :
    List Bool → AllocState × AllocState × List String → AllocState × AllocState × List String
  | [], st => st
  | b :: rest, (s1, s2, dir) =>
    if b then
      let (s1a, dir1) := allocStep dir s1
      runInterleaved rest (s1a, s2, dir1)
    else
      let (s2a, dir2) := allocStep dir s2
      runInterleaved rest (s1, s2a, dir2)

/-! ## Shared concrete inputs for witnesses -/

/-- A sample provisioned machine. -/
def egNode : Node :=
  { ID := "node-1", PublicIPv4 := "1.2.3.4", PrivateIPv4 := "10.0.0.1", SSHUser := "root" }

/-- A sample topology with one node per role. -/
def egNodes : ProvisionedNodes :=
  { Etcd := [egNode], Master := [egNode], Worker := [egNode], Boostrap := [egNode] }

/-- A world in which every step succeeds: the key file exists at the path
named by DO_SECRET_ACCESS_KEY, provisioning and SSH succeed, the garbler
oracle yields a valid 16-character password, templates and scp succeed,
and the working directory is empty. -/
def egWorld : World :=
  { doApiToken := "token", doSecretAccessKey := "/keys/cluster.pem",
    doKetInstallDir := "", execDir := "/opt/bin", stdinToken := "",
    fileExists := fun s => s == "/keys/cluster.pem",
    provisionResult := .ok egNodes, sshError := none,
    gen := fun _ => some ("Abcdefghijklmnop"),
    templateParseError := none, templateExecError := none,
    scpResult := .ok ("scp-ok"), fsFuel := 10 }

/-- A sample topology whose worker list is empty, matching
WorkerNodeCount = 0 (spec invariant: role list lengths equal the
requested counts). -/
def noWorkerNodes : ProvisionedNodes :=
  { Etcd := [egNode], Master := [egNode], Worker := [], Boostrap := [egNode] }

/-- A sample topology whose master list is empty (MasterNodeCount 0). -/
def noMasterNodes : ProvisionedNodes :=
  { Etcd := [egNode], Master := [], Worker := [egNode], Boostrap := [egNode] }

/-- egWorld with a provisioned topology that has no workers. -/
def noWorkerWorld : World := { egWorld with provisionResult := .ok noWorkerNodes }

/-- egWorld with a provisioned topology that has no masters. -/
def noMasterWorld : World := { egWorld with provisionResult := .ok noMasterNodes }

/-- A world where DO_SECRET_ACCESS_KEY is unset and no file exists at
all — in particular no ssh/cluster.pem next to the executable. -/
def missingKeyWorld : World :=
  { egWorld with doSecretAccessKey := "", fileExists := fun _ => false }

/-- egWorld with a failing scp transport. -/
def scpFailWorld : World := { egWorld with scpResult := .error ("connection refused") }

/-- The create options with the storage-cluster flag set. -/
def storageOpts : DOOpts := { defaultOpts with Storage := true }

/-- The create options with the no-plan flag set. -/
def noPlanOpts : DOOpts := { defaultOpts with NoPlan := true }

/-- A sample configuration plan, used as makePlan input. -/
def egPlan : Plan :=
  { AdminPassword := "pw", Etcd := [egNode], Master := [egNode],
    Worker := [egNode], Ingress := [egNode], Storage := [],
    MasterNodeFQDN := "1.2.3.4", MasterNodeShortName := "1.2.3.4",
    SSHKeyFile := "/ket/ssh/cluster.pem", SSHUser := "root" }

/-- The makePlan result produced by a run of makeInfra on `storageOpts`
and `egWorld`: the assembled plan carries the full worker list as the
storage list, the base output name was free, and scp succeeded. -/
def storagePlanResult : PlanResult :=
  { plan :=
      { AdminPassword := "Abcdefghijklmnop", Etcd := [egNode],
        Master := [egNode], Worker := [egNode], Ingress := [egNode],
        Storage := [egNode], MasterNodeFQDN := "1.2.3.4",
        MasterNodeShortName := "1.2.3.4",
        SSHKeyFile := "/ket/ssh/cluster.pem", SSHUser := "root" },
    fileName := "kismatic-cluster.yaml",
    filesCreated := ["kismatic-cluster.yaml"],
    scpAttempted := true, scpSucceeded := true }

/-- The makeInfra result for `storageOpts` and `egWorld`. -/
def storageInfraResult : InfraResult :=
  { planOut := some storagePlanResult, passwordGenerated := true,
    filesCreated := ["kismatic-cluster.yaml"] }

/-- A directory state in which every name exists. -/
def allTakenDir : String → Bool := fun _ => true

/-- A directory containing exactly the base output name. -/
def oneFileDir : String → Bool := fun s => s == "kismatic-cluster.yaml"

/-- A directory containing the base output name and the -1 suffix. -/
def twoFilesDir : String → Bool :=
  fun s => s == "kismatic-cluster.yaml" || s == "kismatic-cluster-1.yaml"

/-- A garbler oracle that errs on the first call and would return a
valid alphanumeric password on every later call. -/
def genFailOnce : Nat → Option String :=
  fun i => if i = 0 then none else some ("abcdefghijklmnop")

/-- A garbler oracle whose first candidate fails the pattern check and
whose second candidate passes it. -/
def genSecondTry : Nat → Option String :=
  fun i => if i = 0 then some ("!!!") else some ("Abcdefghijklmnop")

/-- A garbler oracle that always returns the same valid password. -/
def genConst : Nat → Option String := fun _ => some ("abcdefghijklmnop")

/-- Modelled from the spec: the garbler password generator is an
external strength-constrained collaborator handed
MinimumTotalLength = 16; the spec trusts it for the length bound (only
"no punctuation" is distrusted, hence the post-hoc pattern check), so
every successful output is at least 16 characters long. -/
def GarblerHonorsMinLength (gen : Nat → Option String) : Prop :=
  ∀ j s, gen j = some s → 16 ≤ s.length

/-! ## Helper lemmas -/

/-- In a directory where every candidate name is taken, the probing
recursion never returns, whatever the fuel and starting count. -/
theorem makeUniqueFileFuel_allTaken (fuel : Nat) :
    ∀ c, makeUniqueFileFuel (fun _ => true) c fuel = none := by
  induction fuel with
  | zero => intro c; rfl
  | succ n ih => intro c; simpa [makeUniqueFileFuel] using ih (c + 1)

/-- If the first `n` candidates from `c` are taken and candidate `c + n`
is free, the probing returns candidate `c + n` given fuel above `n`. -/
theorem makeUniqueFileFuel_first_free (taken : String → Bool) :
    ∀ (n fuel c : Nat), n < fuel →
      taken (candName (c + n)) = false →
      (∀ i, i < n → taken (candName (c + i)) = true) →
      makeUniqueFileFuel taken c fuel = some (candName (c + n)) := by
  intro n
  induction n with
  | zero =>
    intro fuel c hfuel hfree _
    match fuel, hfuel with
    | f + 1, _ =>
      rw [Nat.add_zero] at hfree
      simp [makeUniqueFileFuel, hfree]
  | succ m ih =>
    intro fuel c hfuel hfree htaken
    match fuel, hfuel with
    | f + 1, hf =>
      have h0 : taken (candName (c + 0)) = true := htaken 0 (Nat.succ_pos m)
      rw [Nat.add_zero] at h0
      have hrec : makeUniqueFileFuel taken (c + 1) f = some (candName ((c + 1) + m)) := by
        refine ih f (c + 1) (by omega) ?_ ?_
        · have he : (c + 1) + m = c + (m + 1) := by omega
          rw [he]; exact hfree
        · intro i hi
          have he : (c + 1) + i = c + (i + 1) := by omega
          rw [he]; exact htaken (i + 1) (by omega)
      have he : (c + 1) + m = c + (m + 1) := by omega
      rw [he] at hrec
      simp [makeUniqueFileFuel, h0, hrec]

/-- A generation error returns the sentinel at once, with retries left. -/
theorem generatePasswordFrom_genFail (gen : Nat → Option String)
    (i remaining : Nat) (h : gen i = none) :
    generatePasswordFrom gen i remaining = "weakpassword" := by
  cases remaining <;> rw [generatePasswordFrom, h]

/-- If every generated candidate up to the retry budget fails the
pattern, the loop returns the sentinel. -/
theorem generatePasswordFrom_allFail (gen : Nat → Option String) :
    ∀ (remaining i : Nat),
      (∀ j, j ≤ remaining → ∃ s, gen (i + j) = some s ∧ matchesCodePattern s = false) →
      generatePasswordFrom gen i remaining = "weakpassword" := by
  intro remaining
  induction remaining with
  | zero =>
    intro i h
    obtain ⟨s, hs, hm⟩ := h 0 (Nat.le_refl 0)
    rw [Nat.add_zero] at hs
    rw [generatePasswordFrom, hs]
    simp [hm]
  | succ r ih =>
    intro i h
    obtain ⟨s, hs, hm⟩ := h 0 (Nat.zero_le _)
    rw [Nat.add_zero] at hs
    have hrec := ih (i + 1) (fun j hj => by
      have hx := h (j + 1) (by omega)
      have he : (i + 1) + j = i + (j + 1) := by omega
      rw [he]; exact hx)
    rw [generatePasswordFrom, hs]
    simp [hm, hrec]

/-- If the first `k` candidates fail the pattern and candidate `k`
matches, the loop returns candidate `k`, given retries at least `k`. -/
theorem generatePasswordFrom_firstMatch (gen : Nat → Option String) (p : String)
    (hp : matchesCodePattern p = true) :
    ∀ (k remaining i : Nat), k ≤ remaining →
      (∀ j, j < k → ∃ s, gen (i + j) = some s ∧ matchesCodePattern s = false) →
      gen (i + k) = some p →
      generatePasswordFrom gen i remaining = p := by
  intro k
  induction k with
  | zero =>
    intro remaining i _ _ hk
    rw [Nat.add_zero] at hk
    cases remaining <;> (rw [generatePasswordFrom, hk]; simp [hp])
  | succ m ih =>
    intro remaining i hle hfail hk
    obtain ⟨s, hs, hm⟩ := hfail 0 (Nat.succ_pos m)
    rw [Nat.add_zero] at hs
    match remaining, hle with
    | r + 1, _ =>
      have hrec := ih r (i + 1) (by omega)
        (fun j hj => by
          have he : (i + 1) + j = i + (j + 1) := by omega
          rw [he]; exact hfail (j + 1) (by omega))
        (by
          have he : (i + 1) + m = i + (m + 1) := by omega
          rw [he]; exact hk)
      rw [generatePasswordFrom, hs]
      simp [hm, hrec]

/-- Every value the loop returns is either the sentinel or a generated
candidate that passed the source's pattern check. -/
theorem generatePasswordFrom_result (gen : Nat → Option String) :
    ∀ (remaining i : Nat),
      generatePasswordFrom gen i remaining = "weakpassword" ∨
      (∃ j, gen j = some (generatePasswordFrom gen i remaining) ∧
        matchesCodePattern (generatePasswordFrom gen i remaining) = true) := by
  intro remaining
  induction remaining with
  | zero =>
    intro i
    cases hgi : gen i with
    | none => left; rw [generatePasswordFrom, hgi]
    | some pass =>
      by_cases hm : matchesCodePattern pass = true
      · right
        refine ⟨i, ?_, ?_⟩ <;> rw [generatePasswordFrom, hgi] <;> simp [hm, hgi]
      · left
        rw [generatePasswordFrom, hgi]
        simp [hm]
  | succ r ih =>
    intro i
    cases hgi : gen i with
    | none => left; rw [generatePasswordFrom, hgi]
    | some pass =>
      by_cases hm : matchesCodePattern pass = true
      · right
        refine ⟨i, ?_, ?_⟩ <;> rw [generatePasswordFrom, hgi] <;> simp [hm, hgi]
      · have := ih (i + 1)
        rw [generatePasswordFrom, hgi]
        simpa [hm] using this

/-- The source's character class [a-zA-Z1-9] is contained in the spec's
class [a-zA-Z0-9]. -/
theorem isCodePatternChar_implies_spec (c : Char) (h : isCodePatternChar c = true) :
    isSpecAlphaNumChar c = true := by
  unfold isCodePatternChar at h
  unfold isSpecAlphaNumChar
  simp only [Bool.or_eq_true, Bool.and_eq_true, decide_eq_true_eq] at h ⊢
  rcases h with (h | h) | h
  · exact Or.inl (Or.inl h)
  · exact Or.inl (Or.inr h)
  · refine Or.inr ⟨?_, h.2⟩
    have h01 : ('0' : Char) ≤ '1' := by decide
    exact le_trans h01 h.1

/-- Any string matching the source's pattern matches the spec's. -/
theorem matchesCodePattern_implies_spec (s : String) (h : matchesCodePattern s = true) :
    matchesSpecPattern s = true := by
  unfold matchesCodePattern at h
  unfold matchesSpecPattern
  rw [Bool.and_eq_true] at h ⊢
  refine ⟨h.1, ?_⟩
  rw [List.all_eq_true] at *
  intro c hc
  exact isCodePatternChar_implies_spec c (h.2 c hc)

/-- When the os.Stat that makeInfra performs on validateKeyFile's
private-key path succeeds, validateKeyFile reported no error: its error
branch returns the empty path, whose stat always fails. -/
theorem validateKeyFile_ok_of_stat (w : World) (k : String)
    (h : osStat w (validateKeyFile w).1 = some k) :
    (validateKeyFile w).2.2 = none := by
  unfold validateKeyFile at h ⊢
  by_cases h1 : w.doSecretAccessKey = ""
  · simp only [h1, if_true] at h ⊢
    by_cases h2 : w.fileExists (w.execDir ++ "/ssh" ++ "/cluster.pem")
    · simp [h2]
    · simp only [h2] at h
      simp [osStat] at h
  · simp [h1]

/-- Whatever path a successful makePlan takes, the plan recorded in its
result is the one it was handed. -/
theorem makePlan_plan_eq (pln : Plan) (opts : DOOpts) (nodes : ProvisionedNodes)
    (w : World) (pr : PlanResult)
    (h : makePlan pln opts nodes w = some (.ok pr)) : pr.plan = pln := by
  unfold makePlan at h
  split at h
  · simp at h
  · split at h
    · simp at h
    · split at h
      · simp at h
      · split at h
        · split at h
          · simp at h
          · split at h
            · injection h with h1; injection h1 with h2; rw [← h2]
            · injection h with h1; injection h1 with h2; rw [← h2]
        · injection h with h1; injection h1 with h2; rw [← h2]

/-! ## Claim theorems -/

/-- C1: the spec claims Plan Assembly fails with a descriptive
precondition error, rather than an index-out-of-range fault, whenever
the master or worker list is empty.  The source has no such check: with
the no-plan flag unset, every earlier step succeeding and an empty
worker (resp. master) list, makeInfra evaluates nodes.Worker[0]
(resp. nodes.Master[0]) in the plan literal and faults with index out
of range instead of returning an error.  This theorem evaluates the
code at the two failing inputs. -/
theorem makeInfra_empty_role_faults :
    makeInfra { defaultOpts with WorkerNodeCount := 0 } noWorkerWorld
      = some (.error (.panic .indexOutOfRange)) ∧
    makeInfra { defaultOpts with MasterNodeCount := 0 } noMasterWorld
      = some (.error (.panic .indexOutOfRange)) :=
  ⟨rfl, rfl⟩

/-- C2 counterexample: the claim says the generator retries on
generation errors and a single generation error never yields the
sentinel directly.  With an oracle that errs on the very first garbler
call — although an immediate retry would have produced the valid
password "abcdefghijklmnop" — the source returns the sentinel at once:
its `err != nil` branch returns "weakpassword" without retrying. -/
theorem single_generation_error_yields_sentinel :
    matchesCodePattern ("abcdefghijklmnop") = true ∧
    generateAlphaNumericPassword genFailOnce = "weakpassword" :=
  ⟨by decide, rfl⟩

/-- C2 amended: the generator retries only on pattern-validation
failures.  A generation error returns the sentinel immediately; the
sentinel is otherwise returned only after 51 consecutive pattern
failures (the attempts counter reaching the source's `== 50` test); and
a pattern-matching candidate produced within the budget is returned. -/
theorem password_retry_policy (gen : Nat → Option String) :
    (gen 0 = none → generateAlphaNumericPassword gen = "weakpassword") ∧
    ((∀ j, j ≤ 50 → ∃ s, gen j = some s ∧ matchesCodePattern s = false) →
      generateAlphaNumericPassword gen = "weakpassword") ∧
    (∀ k p, k ≤ 50 → matchesCodePattern p = true →
      (∀ j, j < k → ∃ s, gen j = some s ∧ matchesCodePattern s = false) →
      gen k = some p →
      generateAlphaNumericPassword gen = p) := by
  refine ⟨fun h => generatePasswordFrom_genFail gen 0 50 h, fun h => ?_, ?_⟩
  · exact generatePasswordFrom_allFail gen 50 0 (by simpa using h)
  · intro k p hk hp hfail hgk
    exact generatePasswordFrom_firstMatch gen p hp k 50 0 hk
      (by simpa using hfail) (by simpa using hgk)

/-- C2 amended, witness: the first garbler candidate "!!!" fails the
pattern check, the second candidate matches and is returned. -/
theorem password_retry_policy_witness :
    generateAlphaNumericPassword genSecondTry = "Abcdefghijklmnop" := by
  refine (password_retry_policy genSecondTry).2.2 1 ("Abcdefghijklmnop")
    (by decide) (by decide) ?_ rfl
  intro j hj
  have hj0 : j = 0 := by omega
  subst hj0
  exact ⟨"!!!", rfl, by decide⟩

/-- C3: the spec claims a missing SSH private key file is surfaced
immediately as a descriptive error return with no other fault.  The
source does build that error in validateKeyFile (first conjunct), but
makeInfra calls s.Name() on the result of os.Stat before checking the
returned error: with DO_SECRET_ACCESS_KEY unset and no ssh/cluster.pem
present, the stat of the empty returned path fails, s is nil, and the
run faults with a nil-pointer dereference before the descriptive error
is ever returned (second conjunct evaluates the code there). -/
theorem missing_key_nil_fault :
    (validateKeyFile missingKeyWorld).2.2.isSome = true ∧
    makeInfra defaultOpts missingKeyWorld
      = some (.error (.panic .nilPointerDereference)) :=
  ⟨rfl, rfl⟩

/-- C4 counterexample: the claim says the filename probing performs at
most a sane fixed number of attempts for every directory state,
reporting a fatal error when the bound is exceeded.  In a directory
where every candidate name exists, after 5000 probes — past any sane
bound, the spec itself suggesting a few thousand — the recursion has
neither returned nor produced any error: the source has no bound and no
error path. -/
theorem probing_exceeds_any_sane_bound :
    makeUniqueFileFuel allTakenDir 0 5000 = none :=
  makeUniqueFileFuel_allTaken 5000 0

/-- C4 amended: makeUniqueFile probes by unbounded recursion with no
attempt limit and no exhaustion error: in a directory where every
candidate is taken it never returns, however much fuel it is given,
and when a free candidate exists it terminates by returning the first
free one. -/
theorem probing_unbounded_recursion :
    (∀ fuel c, makeUniqueFileFuel allTakenDir c fuel = none) ∧
    (∀ (taken : String → Bool) (n fuel : Nat), n < fuel →
      taken (candName n) = false →
      (∀ i, i < n → taken (candName i) = true) →
      makeUniqueFileFuel taken 0 fuel = some (candName n)) := by
  constructor
  · intro fuel c
    exact makeUniqueFileFuel_allTaken fuel c
  · intro taken n fuel hf hfree htaken
    have h := makeUniqueFileFuel_first_free taken n fuel 0 hf
      (by simpa using hfree) (by simpa using htaken)
    simpa using h

/-- C4 amended, witness: with only the base name taken, the probing
returns the first suffixed candidate. -/
theorem probing_unbounded_recursion_witness :
    makeUniqueFileFuel oneFileDir 0 2 = some (candName 1) :=
  probing_unbounded_recursion.2 oneFileDir 1 2 (by decide) (by decide) (by decide)

/-- C5: the allocator returns the base name "kismatic-cluster.yaml"
unmodified when it is free (the case N = 0), and otherwise the first
available "kismatic-cluster-<n>.yaml": whenever the first N candidates
— the base name and the suffixes 1 .. N-1 — are taken and candidate N
is free, it returns candidate N. -/
theorem allocator_first_free_name (taken : String → Bool) (N fuel : Nat)
    (hfuel : N < fuel)
    (hfree : taken (candName N) = false)
    (htaken : ∀ i, i < N → taken (candName i) = true) :
    makeUniqueFileFuel taken 0 fuel = some (candName N) := by
  have h := makeUniqueFileFuel_first_free taken N fuel 0 hfuel
    (by simpa using hfree) (by simpa using htaken)
  simpa using h

/-- C5 witness: with base.yaml and base-1.yaml pre-existing (N = 2),
the allocator returns base-2.yaml. -/
theorem allocator_first_free_name_witness :
    makeUniqueFileFuel twoFilesDir 0 3 = some ("kismatic-cluster-2.yaml") := by
  rw [allocator_first_free_name twoFilesDir 2 3 (by decide) (by decide) (by decide)]
  decide

/-- C6: an scp staging failure is non-fatal.  Whenever template
parsing, unique-file allocation and template execution succeed and a
bootstrap node exists, makePlan returns success with the locally
created plan file recorded in filesCreated — nothing in the source
removes it — even though the scp transport failed (the source even
discards the fmt.Errorf value it builds for the failure). -/
theorem scp_failure_nonfatal (pln : Plan) (opts : DOOpts) (nodes : ProvisionedNodes)
    (w : World) (fname e : String) (b : Node) (bs : List Node)
    (hparse : w.templateParseError = none)
    (halloc : makeUniqueFileFuel w.fileExists 0 w.fsFuel = some fname)
    (hexec : w.templateExecError = none)
    (hboot : opts.BootstrapNode = true)
    (hb : nodes.Boostrap = b :: bs)
    (hscp : w.scpResult = .error e) :
    makePlan pln opts nodes w =
      some (.ok { plan := pln, fileName := fname, filesCreated := [fname],
                  scpAttempted := true, scpSucceeded := false }) := by
  simp [makePlan, hparse, halloc, hexec, hboot, hb, hscp]

/-- C6 witness: a concrete run whose scp fails still succeeds, leaving
the freshly allocated local plan file in place. -/
theorem scp_failure_nonfatal_witness :
    makePlan egPlan defaultOpts egNodes scpFailWorld =
      some (.ok { plan := egPlan, fileName := "kismatic-cluster.yaml",
                  filesCreated := ["kismatic-cluster.yaml"],
                  scpAttempted := true, scpSucceeded := false }) :=
  scp_failure_nonfatal egPlan defaultOpts egNodes scpFailWorld
    ("kismatic-cluster.yaml") ("connection refused") egNode []
    rfl rfl rfl rfl rfl rfl

/-- C7: every password the generator returns, other than the sentinel
fallback, passed the source's pattern check [a-zA-Z1-9]+ — hence
matches the spec's ^[a-zA-Z0-9]+$ — and, the garbler honoring its
minimum-length contract, is at least 16 characters long. -/
theorem returned_password_strength (gen : Nat → Option String)
    (hgen : GarblerHonorsMinLength gen)
    (hne : generateAlphaNumericPassword gen ≠ "weakpassword") :
    16 ≤ (generateAlphaNumericPassword gen).length ∧
    matchesSpecPattern (generateAlphaNumericPassword gen) = true := by
  unfold generateAlphaNumericPassword at hne ⊢
  rcases generatePasswordFrom_result gen 50 0 with h | ⟨j, hj, hm⟩
  · exact absurd h hne
  · exact ⟨hgen j _ hj, matchesCodePattern_implies_spec _ hm⟩

/-- C7 witness: a run whose garbler returns a valid 16-character
password. -/
theorem returned_password_strength_witness :
    16 ≤ (generateAlphaNumericPassword genConst).length ∧
    matchesSpecPattern (generateAlphaNumericPassword genConst) = true :=
  returned_password_strength genConst
    (fun j s h => by
      simp only [genConst] at h
      injection h with h2
      rw [← h2]
      decide)
    (by decide)

/-- C8: in every successful run that assembles a plan, the plan's
storage node list equals the full worker list of the provisioned
topology when the storage-cluster option is set, and is empty
otherwise. -/
theorem storage_list_matches_option (opts : DOOpts) (w : World)
    (nodes : ProvisionedNodes) (r : InfraResult) (pr : PlanResult)
    (hprov : w.provisionResult = .ok nodes)
    (hok : makeInfra opts w = some (.ok r))
    (hpr : r.planOut = some pr) :
    pr.plan.Storage = if opts.Storage then nodes.Worker else [] := by
  simp only [makeInfra, hprov] at hok
  split at hok
  · simp at hok
  · split at hok
    · simp at hok
    · split at hok
      · simp at hok
      · split at hok
        · simp only [Option.some.injEq, Except.ok.injEq] at hok
          rw [← hok] at hpr
          simp at hpr
        · split at hok
          · simp at hok
          · split at hok
            · simp at hok
            · split at hok
              · simp at hok
              · simp at hok
              · simp only [Option.some.injEq, Except.ok.injEq] at hok
                rename_i r2 heq
                rw [← hok] at hpr
                simp only [Option.some.injEq] at hpr
                subst hpr
                have hplan := makePlan_plan_eq _ _ _ _ _ heq
                rw [hplan]

/-- C8 witness: a concrete run with the storage flag set assembles a
plan whose storage list is the whole worker list. -/
theorem storage_list_matches_option_witness :
    storagePlanResult.plan.Storage
      = if storageOpts.Storage then egNodes.Worker else [] :=
  storage_list_matches_option storageOpts egWorld egNodes
    storageInfraResult storagePlanResult rfl rfl rfl

/-- C9 counterexample: the claim says the allocator's check-and-create
is a single atomic exclusive-create, so two concurrent allocations
never return the same name.  The source's probe is os.Stat followed by
a separate, non-exclusive os.Create; under the interleaving
stat, stat, create, create starting from an empty directory, both
invocations return "kismatic-cluster.yaml". -/
theorem concurrent_alloc_same_name :
    runInterleaved [true, false, true, false] (.atStat 0, .atStat 0, [])
      = (.returned ("kismatic-cluster.yaml"), .returned ("kismatic-cluster.yaml"),
         ["kismatic-cluster.yaml", "kismatic-cluster.yaml"]) :=
  rfl

/-- C9 amended: the check and the create are two separate filesystem
operations and the create is not exclusive, so some interleaving of two
concurrent allocations in the same (empty) directory leaves both
returning the same name. -/
theorem alloc_check_create_not_atomic :
    ∃ (sched : List Bool) (n : String) (dir : List String),
      runInterleaved sched (.atStat 0, .atStat 0, [])
        = (.returned n, .returned n, dir) :=
  ⟨[true, false, true, false], "kismatic-cluster.yaml",
    ["kismatic-cluster.yaml", "kismatic-cluster.yaml"], rfl⟩

/-- C10: with the no-plan option set, once the key file resolves, the
provisioner returns a topology and SSH readiness succeeds, makeInfra
returns success having written no file, assembled no plan and never
invoked the credential generator — for every provisioned topology. -/
theorem noplan_frame (opts : DOOpts) (w : World) (nodes : ProvisionedNodes) (k : String)
    (hnoplan : opts.NoPlan = true)
    (hstat : osStat w (validateKeyFile w).1 = some k)
    (hprov : w.provisionResult = .ok nodes)
    (hssh : w.sshError = none) :
    makeInfra opts w =
      some (.ok { planOut := none, passwordGenerated := false, filesCreated := [] }) := by
  have herr := validateKeyFile_ok_of_stat w k hstat
  simp [makeInfra, hstat, herr, hprov, hssh, hnoplan]

/-- C10 witness: a concrete no-plan run succeeds with an unchanged
working directory and no password generated. -/
theorem noplan_frame_witness :
    makeInfra noPlanOpts egWorld =
      some (.ok { planOut := none, passwordGenerated := false, filesCreated := [] }) :=
  noplan_frame noPlanOpts egWorld egNodes ("cluster.pem") rfl rfl rfl rfl

end KismaticProvision
